import Mathlib

/-!
Shallow embedding of the distributed-coroutine transport layer in
`disasyncoro3.py`: the `_NetRequest` envelope, the `_Peer` worker, the
inbound TCP dispatcher (`AsynCoro._tcp_task`), the ping/pong handshake and
the file-transfer sub-protocol.  Pure decision logic is translated into
executable Lean functions; socket and filesystem effects are passed in as
explicit oracles (connect success, received bytes, file existence).
-/

namespace Disasyncoro

/-- A scheduler instance's identifier, `asyncoro.Location`: `(addr, port)`,
equality by both fields. -/
structure Location where
  addr : String
  port : Nat
deriving DecidableEq, Repr

/-! ### POSIX path model

`os.path.join`, `os.path.basename`, `os.path.abspath`/`normpath` and
`str.startswith` as the Python code uses them, over `String`/`List Char`. -/

/-- Split a character list on `/`, keeping empty components
(`"/a//b".split` gives `["", "a", "", "b"]`), as `str.split('/')` does. -/
def splitSlash : List Char → List Char → List (List Char)
  | [], cur => [cur.reverse]
  | c :: rest, cur =>
      if c = '/' then cur.reverse :: splitSlash rest []
      else splitSlash rest (c :: cur)

/-- Components of a path string (including empty ones). -/
def pathComponents (s : String) : List (List Char) :=
  splitSlash s.data []

/-- `os.path.join(a, b)` for POSIX paths: an absolute `b` discards `a`;
otherwise the two are glued with a single `/`. -/
def joinP (a b : String) : String :=
  if b.data.head? = some '/' then b
  else if a = "" then b
  else if a.data.getLast? = some '/' then a ++ b
  else a ++ "/" ++ b

/-- `os.path.basename(p)`: everything after the last `/`. -/
def basenameP (s : String) : String :=
  ⟨((pathComponents s).getLastD [])⟩

/-- One step of `posixpath.normpath` component processing for an absolute
path: drop empty and `.` components, let `..` pop the last kept component
(at the root, `..` is dropped). -/
def normStep (acc : List (List Char)) (c : List Char) : List (List Char) :=
  if c = [] ∨ c = ['.'] then acc
  else if c = ['.', '.'] then acc.dropLast
  else acc ++ [c]

/-- Normalised components of an absolute path: what
`os.path.abspath` resolves the string to, as a component list. -/
def normAbs (s : String) : List (List Char) :=
  (pathComponents s).foldl normStep []

/-- `os.path.abspath(p)` for an absolute `p` (every call site in the code
passes an absolute string, since `dest_path_prefix` is absolute). -/
def abspathP (s : String) : String :=
  ⟨'/' :: (List.intersperse ['/'] (normAbs s)).flatten⟩

/-- `str.startswith(pfx)`. -/
def startswith (pfx s : String) : Bool :=
  List.isPrefixOf pfx.data s.data

/-- Semantic containment: the path `s`, once normalised, lies at or below
the directory `pfx` (the component list of `pfx` is a prefix of the
component list of the normalised `s`).  This is the spec's notion of "does
not escape `dest_path_prefix`"; the code instead tests `startswith` on the
raw strings. -/
def liesUnder (pfx s : String) : Bool :=
  List.isPrefixOf (normAbs pfx) (normAbs s)

/-! ### File-transfer handlers -/

/-- The subset of `os.stat_result` the protocol compares:
modification time, size and mode. -/
structure Stat where
  st_mtime : Int
  st_size : Nat
  st_mode : Nat
deriving DecidableEq, Repr

/-- `stat.S_IMODE(m)`: the low permission bits, `m & 0o7777`. -/
def S_IMODE (m : Nat) : Nat := m % 4096

/-- The receiver's filesystem, as far as the handlers consult it: the set
of regular files (keyed by normalised absolute path) with their stats.
The OS resolves `.`/`..` in any path handed to it, hence the key. -/
structure FS where
  files : List (List (List Char) × Stat)
deriving Repr

/-- `os.path.isfile(p)` against the model filesystem. -/
def FS.isfile (fs : FS) (p : String) : Bool :=
  (fs.files.lookup (normAbs p)).isSome

/-- `os.stat(p)` against the model filesystem (call sites guard it by
`isfile`); a missing file gives a dummy stat. -/
def FS.statOf (fs : FS) (p : String) : Stat :=
  (fs.files.lookup (normAbs p)).getD ⟨0, 0, 0⟩

/-- A `send_file` pre-flight reply: a numeric code (`-1`, `0`, `1`) or the
target file's stat struct. -/
inductive FileResp where
  | code (i : Int)
  | statR (s : Stat)
deriving DecidableEq, Repr

/-- The kwargs of a `send_file`/`del_file` request. -/
structure FileKwargs where
  file : String
  stat_buf : Stat
  overwrite : Bool
  dest_path : Option String
deriving Repr

/-- The target path the `send_file` branch of `_tcp_task` computes:
`abspath(join(dest_path_prefix, join(dest_path, basename(file))))`
(the join with `dest_path` happens whenever `dest_path` is a string,
empty or not). -/
def sendFileTgt (destPathPrefix : String) (kw : FileKwargs) : String :=
  let tgt := basenameP kw.file
  let tgt := match kw.dest_path with
    | some d => joinP d tgt
    | none => tgt
  abspathP (joinP destPathPrefix tgt)

/-- The metadata comparison of lines 988-990: mtimes within one second,
equal sizes, equal permission bits. -/
def statMatches (a b : Stat) : Bool :=
  (a.st_mtime - b.st_mtime).natAbs ≤ 1 && a.st_size == b.st_size &&
    S_IMODE a.st_mode == S_IMODE b.st_mode

/-- The `send_file` pre-flight decision of `_tcp_task` (lines 969-1003):
the reply sent before any payload, and whether the target was opened for
writing.  `maxFileSize = 0` models `max_file_size` unset (`None`/`0` are
both falsy in the guard); `canCreate` is the outcome oracle of the
`makedirs`/`open` attempt. -/
def recvSendFile (destPathPrefix : String) (maxFileSize : Nat) (fs : FS)
    (canCreate : Bool) (kw : FileKwargs) : FileResp × Bool :=
  let tgt := sendFileTgt destPathPrefix kw
  let stat_buf := kw.stat_buf
  let resp : FileResp :=
    if maxFileSize ≠ 0 ∧ stat_buf.st_size > maxFileSize then .code (-1)
    else if ¬ startswith destPathPrefix tgt then .code (-1)
    else if fs.isfile tgt then
      let sbuf := fs.statOf tgt
      if statMatches stat_buf sbuf then .code 1
      else if ¬ kw.overwrite then .statR sbuf
      else .code 0
    else .code 0
  if resp = .code 0 then
    if canCreate then (.code 0, true) else (.code (-1), false)
  else (resp, false)

/-- The target path the `del_file` branch computes:
`join(dest_path_prefix, join(dest_path, basename(file)))` — note: no
`abspath`, and the join with `dest_path` only when it is a non-empty
string. -/
def delFileTgt (destPathPrefix : String) (file : String)
    (dest_path : Option String) : String :=
  let tgt := basenameP file
  let tgt := match dest_path with
    | some d => if d ≠ "" then joinP d tgt else tgt
    | none => tgt
  joinP destPathPrefix tgt

/-- The `del_file` branch of `_tcp_task` (lines 1025-1047): the reply, and
the path handed to `os.remove` when a removal happens. -/
def recvDelFile (destPathPrefix : String) (fs : FS) (file : String)
    (dest_path : Option String) : Int × Option String :=
  let tgt := delFileTgt destPathPrefix file dest_path
  if startswith destPathPrefix tgt ∧ fs.isfile tgt then (0, some tgt)
  else (-1, none)

/-- The client-side `dest_path` validation shared by `AsynCoro.send_file`
and `AsynCoro.del_file`: a non-empty `dest_path` is rejected (result `-1`)
iff it is absolute (`os.path.join(os.sep, dest_path) == dest_path`). -/
def clientRejectsDestPath (dest_path : String) : Bool :=
  dest_path ≠ "" && joinP "/" dest_path = dest_path

/-! ### The `_NetRequest` envelope and its wire state -/

/-- An opaque reply payload. -/
abbrev ReplyVal := String

/-- The `_NetRequest` object: the wire envelope plus the local-only
`event` slot (an `Event` handle, modelled by an identifier). -/
structure NetRequest where
  name : String
  kwargs : List (String × String)
  src : Option Location
  dst : Option Location
  auth : Option String
  id : Nat
  reply : Option ReplyVal
  timeout : Option Nat
  event : Option Nat
deriving DecidableEq, Repr

/-- The dict built by `_NetRequest.__getstate__`: the eight enumerated
fields, without `event`. -/
structure WireState where
  name : String
  kwargs : List (String × String)
  src : Option Location
  dst : Option Location
  auth : Option String
  id : Nat
  reply : Option ReplyVal
  timeout : Option Nat
deriving DecidableEq, Repr

/-- `_NetRequest.__getstate__`. -/
def getstate (r : NetRequest) : WireState :=
  ⟨r.name, r.kwargs, r.src, r.dst, r.auth, r.id, r.reply, r.timeout⟩

/-- `_NetRequest.__setstate__` on a freshly unpickled object: every key of
the state dict is `setattr`-ed; the `event` slot is not in the dict, so it
stays unset (modelled as `none`). -/
def setstate (st : WireState) : NetRequest :=
  ⟨st.name, st.kwargs, st.src, st.dst, st.auth, st.id, st.reply, st.timeout,
   none⟩

/-! ### Authentication and the inbound dispatcher gate -/

/-- `hashlib.sha1(x).hexdigest()` modelled as an injective function of its
input (the collision-freedom idealisation); only functionality and
injectivity of the digest are used by the proofs. -/
def sha1hex (s : String) : String := s

/-- The auth-code computation the code performs at several places:
`None` secret gives `None`; otherwise `sha1(signature + secret)`, where a
`None` signature raises `TypeError` (result `none` = the enclosing
`except` is taken). -/
def authCodeOf (signature : Option String) (secret : Option String) :
    Option (Option String) :=
  match secret with
  | none => some none
  | some sec =>
      match signature with
      | some sg => some (some (sha1hex (sg ++ sec)))
      | none => none

/-- The auth gate at the top of `_tcp_task`'s loop (lines 612-622):
`assert req.auth == self._auth_code`; on failure the message is dispatched
anyway iff `req.name == 'ping'`, else the loop breaks (connection
closed). -/
def dispatchGate (ownAuth : Option String) (req : NetRequest) : Bool :=
  if req.auth = ownAuth then true
  else req.name = "ping"

/-- A request installed in `_requests` awaiting an async reply. -/
structure StoredReq where
  reply : Option ReplyVal
  eventSet : Bool
deriving DecidableEq, Repr

/-- The dispatcher-visible state of an instance: its auth code, location,
and the `_requests` table. -/
structure DispState where
  authCode : Option String
  loc : Location
  requests : List (Nat × StoredReq)
deriving Repr

/-- What one iteration of `_tcp_task` does with a decoded message before
(or instead of) verb dispatch. -/
inductive InAction where
  /-- `break`: connection closed without touching any table
  (auth failure on a non-`ping`, or `dst` mismatch). -/
  | close
  /-- `req.src == self._location` but `_requests` has no entry for
  `req.id`: the message is ignored, connection closed. -/
  | closeIgnored
  /-- `req.src == self._location` and the entry was found: it is popped,
  the reply copied in, its event set, connection closed.  Carries the
  popped request as updated. -/
  | replyDelivered (r : StoredReq)
  /-- The message passed validation and is dispatched on its verb. -/
  | dispatch (verb : String)
deriving DecidableEq, Repr

/-- The validation prefix of `_tcp_task`'s loop body (lines 607-638): the
auth gate, the `dst` check, and the inbound-async-reply branch.  Returns
the instance state afterwards and the action taken. -/
def tcpStep (st : DispState) (req : NetRequest) : DispState × InAction :=
  if ¬ dispatchGate st.authCode req then (st, .close)
  else if req.dst ≠ none ∧ req.dst ≠ some st.loc then (st, .close)
  else if req.src = some st.loc then
    match st.requests.lookup req.id with
    | none => (st, .closeIgnored)
    | some stored =>
        ({st with requests := st.requests.filter (fun p => p.1 ≠ req.id)},
         .replyDelivered {stored with reply := req.reply, eventSet := true})
  else (st, .dispatch req.name)

/-! ### The ping/pong/ack handshake

The peer-table-affecting parts of `_udp_proc` and of the `ping`/`pong`
branches of `_tcp_task`, with socket sends/receives threaded explicitly.
TLS material and the per-peer `stream` flag are elided (no claim consults
them). -/

/-- An instance as the handshake sees it: location, secret and signature,
and the `_Peer.peers` table (keyed by `(addr, port)`, holding the auth
code this instance computed for the peer). -/
structure Inst where
  loc : Location
  secret : Option String
  signature : Option String
  peers : List ((String × Nat) × Option String)
deriving Repr

/-- `AsynCoro.__init__`'s auth setup: with no secret, `signature` and
`_auth_code` are `None`; with a secret, a random `signature` is drawn and
`_auth_code = sha1(signature + secret)`. -/
def mkInst (loc : Location) (secret : Option String) (sig : String) : Inst :=
  ⟨loc, secret, secret.map (fun _ => sig), []⟩

/-- The instance's own `_auth_code`. -/
def ownAuthCode (i : Inst) : Option String :=
  match i.secret, i.signature with
  | some sec, some sg => some (sha1hex (sg ++ sec))
  | _, _ => none

/-- The payload of a `ping:` UDP datagram:
`{location, signature, version}`. -/
structure PingInfo where
  location : Location
  signature : Option String
  version : String
deriving Repr

/-- A `ping`/`pong` handshake envelope: a `_NetRequest` whose kwargs are
`{peer, signature, version}`. -/
structure HSMsg where
  name : String
  auth : Option String
  dst : Option Location
  peer : Location
  signature : Option String
  version : String
deriving Repr

/-- View a handshake message as the `_NetRequest` the dispatcher gate
inspects (only `name` and `auth` matter to the gate). -/
def hsToReq (m : HSMsg) : NetRequest :=
  ⟨m.name, [], none, m.dst, m.auth, 0, none, none, none⟩

/-- `_udp_proc`'s reaction to a received `ping:` datagram (lines 570-602):
validate version, compute the peer's auth code, drop self-pings and
already-known peers, otherwise send a TCP `ping` request.  Returns the
request sent, or `none` when the datagram is dropped. -/
def handleUdpPing (ver : String) (self : Inst) (info : PingInfo) :
    Option HSMsg :=
  if info.version ≠ ver then none
  else match authCodeOf info.signature self.secret with
    | none => none
    | some ac =>
        if info.location = self.loc then none
        else
          match self.peers.lookup (info.location.addr, info.location.port) with
          | some a =>
              if a = ac then none
              else some ⟨"ping", ac, some info.location, self.loc,
                         self.signature, ver⟩
          | none => some ⟨"ping", ac, some info.location, self.loc,
                          self.signature, ver⟩

/-- The `ping` branch of `_tcp_task` up to sending the `pong` (lines
807-835): validate, compute the auth code for the pinging peer, drop
self-pings and matching known peers; otherwise a `pong` carrying that auth
code is sent back and an `ack` awaited.  Returns `(pong, auth_code)` or
`none` when the branch breaks before sending. -/
def pingPhase1 (ver : String) (self : Inst) (m : HSMsg) :
    Option (HSMsg × Option String) :=
  match authCodeOf m.signature self.secret with
  | none => none
  | some ac =>
      if m.version ≠ ver then none
      else if m.peer = self.loc then none
      else
        let pong : HSMsg := ⟨"pong", ac, some m.peer, self.loc,
                             self.signature, ver⟩
        match self.peers.lookup (m.peer.addr, m.peer.port) with
        | some a => if a = ac then none else some (pong, ac)
        | none => some (pong, ac)

/-- The `ping` branch after the `pong` was sent (lines 834-875): if the
reply was not `b'ack'` the branch breaks; otherwise the ping is relayed
(no table change) and the peer installed unless already present. -/
def pingPhase2 (self : Inst) (m : HSMsg) (ac : Option String)
    (ackReceived : Bool) : Inst :=
  if ¬ ackReceived then self
  else
    let key := (m.peer.addr, m.peer.port)
    if (self.peers.lookup key).isSome then self
    else {self with peers := (key, ac) :: self.peers}

/-- The `pong` branch of `_tcp_task` (lines 876-930): validate, compute
the auth code; a matching known peer gets `nak`, otherwise `ack` is sent
and the peer installed unless (second check) already present.  Returns the
instance afterwards and whether `ack` was sent. -/
def handlePong (ver : String) (self : Inst) (m : HSMsg) : Inst × Bool :=
  if m.version ≠ ver then (self, false)
  else match authCodeOf m.signature self.secret with
    | none => (self, false)
    | some ac =>
        let key := (m.peer.addr, m.peer.port)
        match self.peers.lookup key with
        | some a =>
            if a = ac then (self, false)
            else (self, true)
        | none => ({self with peers := (key, ac) :: self.peers}, true)

/-- Outcome of one full discovery round between two instances. -/
structure HSResult where
  instA : Inst
  instB : Inst
  pongSent : Bool
  pongGatePassed : Bool
  ackSent : Bool
deriving Repr

/-- One discovery round, `B` broadcasting first: `A` handles `B`'s UDP
ping and sends a TCP `ping` to `B`; `B`'s dispatcher gate inspects it,
`B`'s ping branch answers with a `pong` to `A`; `A`'s dispatcher gate
inspects the pong and, if it passes, `A`'s pong branch decides on
`ack`/`nak`; `B` completes its ping branch with the received answer
(no answer when the gate closed `A`'s connection, so `B`'s
`assert reply == b'ack'` fails). -/
def runHandshake (ver : String) (A B : Inst) : HSResult :=
  match handleUdpPing ver A ⟨B.loc, B.signature, ver⟩ with
  | none => ⟨A, B, false, false, false⟩
  | some pingReq =>
      if ¬ dispatchGate (ownAuthCode B) (hsToReq pingReq) then
        ⟨A, B, false, false, false⟩
      else
        match pingPhase1 ver B pingReq with
        | none => ⟨A, B, false, false, false⟩
        | some (pong, ac) =>
            if dispatchGate (ownAuthCode A) (hsToReq pong) then
              let (A', ack) := handlePong ver A pong
              ⟨A', pingPhase2 B pingReq ac ack, true, true, ack⟩
            else
              ⟨A, pingPhase2 B pingReq ac false, true, false, false⟩

/-! ### The per-peer drain worker -/

/-- What one iteration of `_Peer.req_proc` (lines 91-134) does to the
request it popped.  `connOpen`: a connection was already open when the
request was popped; `connectOk`: the `connect` oracle; `ioResult`: the
`send_msg`/`recv_msg`/`unserialize` oracle, `none` meaning any
`socket.error`, `socket.timeout` or other exception. -/
structure WorkerOutcome where
  reply : Option ReplyVal
  eventSignalled : Bool
  connAfter : Bool
  sendAttempted : Bool
deriving DecidableEq, Repr

/-- One iteration of the drain worker on a popped request. -/
def reqProcIter (connOpen : Bool) (hasEvent : Bool) (connectOk : Bool)
    (ioResult : Option ReplyVal) : WorkerOutcome :=
  if ¬ connOpen ∧ ¬ connectOk then
    -- connect raised: `self.conn = None; req.reply = None;
    -- if req.event: req.event.set(); continue`
    ⟨none, hasEvent, false, false⟩
  else
    match ioResult with
    | some r =>
        -- send_msg/recv_msg succeeded; `finally` sets the event
        ⟨some r, hasEvent, true, true⟩
    | none =>
        -- all three `except` arms: close conn, `req.reply = None`;
        -- `finally` sets the event
        ⟨none, hasEvent, false, true⟩

/-! ### `locate_peer`, `peer()`, `send`/`deliver` -/

/-- The `locate_peer` branch of `_tcp_task` (lines 948-968): `none` means
no reply is sent at all (neither inline nor by async return); `some loc`
means `loc` is the reply (delivered inline, or on the async-return
connection when `req.src` is set). -/
def locatePeerReply (selfName : String) (selfLoc : Location)
    (reqName : String) (reqDst : Option Location) : Option (Option Location) :=
  if reqName = selfName ∨ reqDst = some selfLoc then
    let loc : Option Location :=
      if reqName = selfName then some selfLoc
      else if reqDst = some selfLoc then none
      else none
    some loc
  else none

/-- Result of `AsynCoro.peer` (lines 417-457): the returned status and
whether the UDP ping and optional TCP ping were actually delivered. -/
structure PeerCallOut where
  ret : Int
  udpPingDelivered : Bool
  tcpPingDelivered : Bool
deriving DecidableEq, Repr

/-- `AsynCoro.peer(node, udp_port, tcp_port, stream_send)`:
`gethostbyname` failure returns `-1` at once; otherwise both ping sends
sit in `try: ... except: pass`, so their outcomes (`udpSendOk`,
`tcpSendOk`) never reach the return value, which is `0`.  The
stream-peer bookkeeping is elided (it does not affect the result). -/
def peerCall (resolveOk : Bool) (tcpPort : Nat)
    (udpSendOk tcpSendOk : Bool) : PeerCallOut :=
  if ¬ resolveOk then ⟨-1, false, false⟩
  else ⟨0, udpSendOk, tcpPort ≠ 0 && tcpSendOk⟩

/-- The coroutine-by-id arm of the `send` branch (lines 647-653): the
local coro table maps ids to the value `coro.send(message)` returns; the
reply is that value, or `-1` for an unknown id. -/
def sendCoroReply (coros : List (Nat × Int)) (cid : Nat) : Int :=
  match coros.lookup cid with
  | some sendRes => sendRes
  | none => -1

/-- The coroutine-by-id arm of the `deliver` branch (lines 672-679):
`coro.send(message)` is called but its value discarded; the reply is the
constant `1`, or `-1` for an unknown id. -/
def deliverCoroReply (coros : List (Nat × Int)) (cid : Nat) : Int :=
  match coros.lookup cid with
  | some _ => 1
  | none => -1

/-! ## Theorems -/

/-- Appending to a fixed string on the left is injective (used to turn
distinct secrets into distinct auth codes). -/
theorem append_left_cancel (s a b : String) (h : s ++ a = s ++ b) : a = b := by
  have hd : (s ++ a).data = (s ++ b).data := congrArg String.data h
  rw [String.data_append, String.data_append] at hd
  exact String.ext (List.append_cancel_left hd)

/-- C1: the spec requires that any `dest_path` whose normalised target
escapes `dest_path_prefix` is answered `-1` with no filesystem change; the
code's `tgt.startswith(dest_path_prefix)` test (and, for `del_file`, the
absence of any normalisation) lets escaping paths through.  Concretely,
with prefix `/tmp/asyncoro` and `dest_path = "../asyncoro2"` (which the
client-side check accepts), the normalised target `/tmp/asyncoro2/f` lies
outside the prefix, yet `send_file` answers `0` and opens the target, and
`del_file` answers `0` and removes the file. -/
theorem sendfile_containment_violated :
    recvSendFile "/tmp/asyncoro" 0 ⟨[]⟩ true
        ⟨"f", ⟨100, 5, 420⟩, false, some "../asyncoro2"⟩ =
      (.code 0, true) ∧
    liesUnder "/tmp/asyncoro"
        (sendFileTgt "/tmp/asyncoro" ⟨"f", ⟨100, 5, 420⟩, false, some "../asyncoro2"⟩) =
      false ∧
    clientRejectsDestPath "../asyncoro2" = false ∧
    recvDelFile "/tmp/asyncoro" ⟨[(normAbs "/tmp/asyncoro2/f", ⟨100, 5, 420⟩)]⟩
        "f" (some "../asyncoro2") =
      (0, some "/tmp/asyncoro/../asyncoro2/f") ∧
    liesUnder "/tmp/asyncoro" (delFileTgt "/tmp/asyncoro" "f" (some "../asyncoro2")) =
      false := by
  decide

/-- C2: when two instances run with mismatching secrets, the handshake
aborts at the `pong`: the pong's auth code (computed from the receiver's
signature and the *sender's* secret) fails the receiver's dispatcher gate,
so no `ack` is ever sent, neither side installs the other in its peer
table, and any non-`ping` request stamped with the cross-computed auth
code is refused by the dispatcher gate. -/
theorem auth_mismatch_no_peer (ver : String) (locA locB : Location)
    (gA gB a b : String) (hab : a ≠ b) (hloc : locA ≠ locB) :
    (runHandshake ver (mkInst locA (some a) gA) (mkInst locB (some b) gB)).pongSent = true ∧
    (runHandshake ver (mkInst locA (some a) gA) (mkInst locB (some b) gB)).pongGatePassed = false ∧
    (runHandshake ver (mkInst locA (some a) gA) (mkInst locB (some b) gB)).ackSent = false ∧
    (runHandshake ver (mkInst locA (some a) gA) (mkInst locB (some b) gB)).instA.peers = [] ∧
    (runHandshake ver (mkInst locA (some a) gA) (mkInst locB (some b) gB)).instB.peers = [] ∧
    (∀ n : String, n ≠ "ping" →
      dispatchGate (ownAuthCode (mkInst locB (some b) gB))
        ⟨n, [], none, none, some (sha1hex (gB ++ a)), 0, none, none, none⟩ = false) := by
  have hBa : gB ++ a ≠ gB ++ b := fun h => hab (append_left_cancel _ _ _ h)
  have hAb : gA ++ b ≠ gA ++ a := fun h => hab (append_left_cancel _ _ _ h).symm
  have hloc' : locB ≠ locA := hloc.symm
  have hrun : runHandshake ver (mkInst locA (some a) gA) (mkInst locB (some b) gB) =
      ⟨mkInst locA (some a) gA, mkInst locB (some b) gB, true, false, false⟩ := by
    simp [runHandshake, handleUdpPing, mkInst, authCodeOf, sha1hex, ownAuthCode,
          dispatchGate, hsToReq, pingPhase1, pingPhase2, handlePong,
          hloc', hloc, hBa, hAb]
  refine ⟨by rw [hrun], by rw [hrun], by rw [hrun], by rw [hrun]; rfl,
          by rw [hrun]; rfl, ?_⟩
  intro n hn
  simp [dispatchGate, ownAuthCode, mkInst, sha1hex, hBa, hn]

/-- Witness for C2: secrets `"a"` and `"b"` on two concrete instances;
the pong is refused, nothing is installed, and a cross-auth `send` is
refused. -/
theorem auth_mismatch_no_peer_witness :
    (runHandshake "v" (mkInst ⟨"10.0.0.1", 100⟩ (some "a") "gA")
        (mkInst ⟨"10.0.0.2", 200⟩ (some "b") "gB")).pongGatePassed = false ∧
    (runHandshake "v" (mkInst ⟨"10.0.0.1", 100⟩ (some "a") "gA")
        (mkInst ⟨"10.0.0.2", 200⟩ (some "b") "gB")).instA.peers = [] ∧
    (runHandshake "v" (mkInst ⟨"10.0.0.1", 100⟩ (some "a") "gA")
        (mkInst ⟨"10.0.0.2", 200⟩ (some "b") "gB")).instB.peers = [] ∧
    dispatchGate (ownAuthCode (mkInst ⟨"10.0.0.2", 200⟩ (some "b") "gB"))
        ⟨"send", [], none, none, some (sha1hex ("gB" ++ "a")), 0, none, none, none⟩ =
      false := by
  have h := auth_mismatch_no_peer "v" ⟨"10.0.0.1", 100⟩ ⟨"10.0.0.2", 200⟩
    "gA" "gB" "a" "b" (by decide) (by decide)
  exact ⟨h.2.1, h.2.2.2.1, h.2.2.2.2.1, h.2.2.2.2.2 "send" (by decide)⟩

/-- C3: the dispatcher requires `req.auth` to equal the instance's own
auth code before dispatching; on mismatch the connection is closed with no
reply and no state change, except that a `ping` passes the gate despite
the auth failure. -/
theorem tcp_auth_gate (st : DispState) (req : NetRequest) :
    (req.auth ≠ st.authCode → req.name ≠ "ping" → tcpStep st req = (st, .close)) ∧
    (dispatchGate st.authCode req = true ↔
      (req.auth = st.authCode ∨ req.name = "ping")) := by
  constructor
  · intro hauth hping
    have hg : dispatchGate st.authCode req = false := by
      simp [dispatchGate, hauth, hping]
    simp [tcpStep, hg]
  · constructor
    · intro h
      by_cases ha : req.auth = st.authCode
      · exact Or.inl ha
      · simp [dispatchGate, ha] at h
        exact Or.inr h
    · intro h
      rcases h with ha | hp
      · simp [dispatchGate, ha]
      · by_cases ha : req.auth = st.authCode <;> simp [dispatchGate, ha, hp]

/-- Witness for C3 at a concrete mismatching non-`ping` request. -/
theorem tcp_auth_gate_witness :
    tcpStep ⟨some "own", ⟨"a", 1⟩, []⟩
        ⟨"send", [], none, none, some "other", 0, none, none, none⟩ =
      (⟨some "own", ⟨"a", 1⟩, []⟩, .close) :=
  (tcp_auth_gate ⟨some "own", ⟨"a", 1⟩, []⟩
    ⟨"send", [], none, none, some "other", 0, none, none, none⟩).1
    (by decide) (by decide)

/-- C4: for a `send_file` request that passes the size and containment
checks, the pre-flight reply is `1` (no transfer) when the target exists
with mtime within one second, equal size and equal mode bits; the
target's stat struct when it exists with differing metadata and
`overwrite` is false; `0` otherwise, and exactly in that case the target
is opened for writing; and `-1` when the file exceeds a set
`max_file_size` or the target cannot be created. -/
theorem send_file_preflight (pfx : String) (mfs : Nat) (fs : FS)
    (canCreate : Bool) (kw : FileKwargs)
    (hsize : mfs = 0 ∨ kw.stat_buf.st_size ≤ mfs)
    (hcontain : startswith pfx (sendFileTgt pfx kw) = true) :
    (fs.isfile (sendFileTgt pfx kw) = true →
      statMatches kw.stat_buf (fs.statOf (sendFileTgt pfx kw)) = true →
      recvSendFile pfx mfs fs canCreate kw = (.code 1, false)) ∧
    (fs.isfile (sendFileTgt pfx kw) = true →
      statMatches kw.stat_buf (fs.statOf (sendFileTgt pfx kw)) = false →
      kw.overwrite = false →
      recvSendFile pfx mfs fs canCreate kw =
        (.statR (fs.statOf (sendFileTgt pfx kw)), false)) ∧
    ((fs.isfile (sendFileTgt pfx kw) = false ∨
        (statMatches kw.stat_buf (fs.statOf (sendFileTgt pfx kw)) = false ∧
          kw.overwrite = true)) →
      recvSendFile pfx mfs fs canCreate kw =
        (if canCreate then (.code 0, true) else (.code (-1), false))) ∧
    ((recvSendFile pfx mfs fs canCreate kw).2 = true ↔
      (recvSendFile pfx mfs fs canCreate kw).1 = .code 0) ∧
    (∀ m, m ≠ 0 → kw.stat_buf.st_size > m →
      recvSendFile pfx m fs canCreate kw = (.code (-1), false)) := by
  have h1 : ¬(mfs ≠ 0 ∧ kw.stat_buf.st_size > mfs) := by
    rcases hsize with h | h
    · simp [h]
    · omega
  refine ⟨?_, ?_, ?_, ?_, ?_⟩
  · intro hE hM
    simp [recvSendFile, h1, hcontain, hE, hM]
  · intro hE hM hO
    simp [recvSendFile, h1, hcontain, hE, hM, hO]
  · rintro (hE | ⟨hM, hO⟩)
    · by_cases hC : canCreate <;> simp [recvSendFile, h1, hcontain, hE, hC]
    · by_cases hC : canCreate <;> simp [recvSendFile, h1, hcontain, hM, hO, hC]
  · by_cases hE : fs.isfile (sendFileTgt pfx kw) <;>
    by_cases hM : statMatches kw.stat_buf (fs.statOf (sendFileTgt pfx kw)) <;>
    by_cases hO : kw.overwrite <;> by_cases hC : canCreate <;>
      simp [recvSendFile, h1, hcontain, hE, hM, hO, hC]
  · intro m hm hgt
    simp [recvSendFile, hm, hgt]

/-- Witness for C4: an identical file already at the destination is
answered `1` with no transfer; an oversized file is answered `-1`. -/
theorem send_file_preflight_witness :
    recvSendFile "/tmp/asyncoro" 0
        ⟨[(normAbs "/tmp/asyncoro/sub/data", ⟨100, 5, 420⟩)]⟩ true
        ⟨"data", ⟨100, 5, 420⟩, false, some "sub"⟩ = (.code 1, false) ∧
    recvSendFile "/tmp/asyncoro" 4
        ⟨[(normAbs "/tmp/asyncoro/sub/data", ⟨100, 5, 420⟩)]⟩ true
        ⟨"data", ⟨100, 5, 420⟩, false, some "sub"⟩ = (.code (-1), false) := by
  have h := send_file_preflight "/tmp/asyncoro" 0
    ⟨[(normAbs "/tmp/asyncoro/sub/data", ⟨100, 5, 420⟩)]⟩ true
    ⟨"data", ⟨100, 5, 420⟩, false, some "sub"⟩ (Or.inl rfl) (by decide)
  exact ⟨h.1 (by decide) (by decide), h.2.2.2.2 4 (by decide) (by decide)⟩

/-- C5: the drain worker marks a request `reply = none` and signals its
event (when present) on connect failure, without attempting the send; on
any exception during send/receive it closes the connection and sets
`reply = none`; and the event is signalled (when present) on every
path. -/
theorem req_proc_error_handling (connOpen hasEvent connectOk : Bool)
    (ioResult : Option ReplyVal) :
    (connOpen = false → connectOk = false →
      reqProcIter connOpen hasEvent connectOk ioResult =
        ⟨none, hasEvent, false, false⟩) ∧
    (ioResult = none → (connOpen = true ∨ connectOk = true) →
      reqProcIter connOpen hasEvent connectOk ioResult =
        ⟨none, hasEvent, false, true⟩) ∧
    (reqProcIter connOpen hasEvent connectOk ioResult).eventSignalled = hasEvent := by
  refine ⟨fun h1 h2 => by simp [reqProcIter, h1, h2], fun h1 h2 => ?_, ?_⟩
  · rcases h2 with h2 | h2 <;> simp [reqProcIter, h1, h2]
  · unfold reqProcIter
    split
    · rfl
    · cases ioResult <;> rfl

/-- Witness for C5: connect failure, and a send error, at concrete
oracles. -/
theorem req_proc_error_handling_witness :
    reqProcIter false true false none = ⟨none, true, false, false⟩ ∧
    reqProcIter true true true none = ⟨none, true, false, true⟩ :=
  ⟨(req_proc_error_handling false true false none).1 rfl rfl,
   (req_proc_error_handling true true true none).2.1 rfl (Or.inl rfl)⟩

/-- C6: an inbound message whose `src` equals the instance's own location
is treated as an async reply: the entry `_requests[req.id]` is popped, the
`reply` field copied into it, its event signalled, and the connection
closed; with no entry for that id the message is ignored and the
connection closed, the tables untouched. -/
theorem async_reply_glue (st : DispState) (req : NetRequest)
    (hgate : dispatchGate st.authCode req = true)
    (hdst : req.dst = none ∨ req.dst = some st.loc)
    (hsrc : req.src = some st.loc) :
    (∀ stored, st.requests.lookup req.id = some stored →
      tcpStep st req =
        ({st with requests := st.requests.filter (fun p => p.1 ≠ req.id)},
         .replyDelivered {stored with reply := req.reply, eventSet := true})) ∧
    (st.requests.lookup req.id = none → tcpStep st req = (st, .closeIgnored)) := by
  have hdst' : ¬ (req.dst ≠ none ∧ req.dst ≠ some st.loc) := by
    rcases hdst with h | h <;> simp [h]
  constructor
  · intro stored hlook
    simp [tcpStep, hgate, hdst', hsrc, hlook]
  · intro hlook
    simp [tcpStep, hgate, hdst', hsrc, hlook]

/-- Witness for C6: a hit and a miss in `_requests` at concrete values. -/
theorem async_reply_glue_witness :
    tcpStep ⟨none, ⟨"a", 1⟩, [(7, ⟨none, false⟩)]⟩
        ⟨"locate_rci", [], some ⟨"a", 1⟩, none, none, 7, some "found", none, none⟩ =
      (⟨none, ⟨"a", 1⟩, []⟩, .replyDelivered ⟨some "found", true⟩) ∧
    tcpStep ⟨none, ⟨"a", 1⟩, [(7, ⟨none, false⟩)]⟩
        ⟨"locate_rci", [], some ⟨"a", 1⟩, none, none, 8, some "found", none, none⟩ =
      (⟨none, ⟨"a", 1⟩, [(7, ⟨none, false⟩)]⟩, .closeIgnored) :=
  ⟨by
    have h := (async_reply_glue ⟨none, ⟨"a", 1⟩, [(7, ⟨none, false⟩)]⟩
      ⟨"locate_rci", [], some ⟨"a", 1⟩, none, none, 7, some "found", none, none⟩
      (by decide) (Or.inl rfl) rfl).1 ⟨none, false⟩ rfl
    simpa using h,
   (async_reply_glue ⟨none, ⟨"a", 1⟩, [(7, ⟨none, false⟩)]⟩
      ⟨"locate_rci", [], some ⟨"a", 1⟩, none, none, 8, some "found", none, none⟩
      (by decide) (Or.inl rfl) rfl).2 rfl⟩

/-- C7: serialising a `_NetRequest` (`__getstate__`) and deserialising
the result (`__setstate__`) preserves all eight enumerated envelope
fields; the `event` slot is not part of the wire state. -/
theorem netrequest_roundtrip (r : NetRequest) :
    (setstate (getstate r)).name = r.name ∧
    (setstate (getstate r)).kwargs = r.kwargs ∧
    (setstate (getstate r)).src = r.src ∧
    (setstate (getstate r)).dst = r.dst ∧
    (setstate (getstate r)).auth = r.auth ∧
    (setstate (getstate r)).id = r.id ∧
    (setstate (getstate r)).reply = r.reply ∧
    (setstate (getstate r)).timeout = r.timeout ∧
    (setstate (getstate r)).event = none := by
  refine ⟨rfl, rfl, rfl, rfl, rfl, rfl, rfl, rfl, rfl⟩

/-- C8: `locate_peer` replies with the instance's own location when the
requested name matches its `_name`; replies `none` when the name does not
match but `req.dst` equals its own location; and otherwise sends no reply
at all. -/
theorem locate_peer_cases (selfName : String) (selfLoc : Location)
    (reqName : String) (reqDst : Option Location) :
    locatePeerReply selfName selfLoc reqName reqDst =
      (if reqName = selfName then some (some selfLoc)
       else if reqDst = some selfLoc then some none
       else none) := by
  unfold locatePeerReply
  by_cases h1 : reqName = selfName <;> by_cases h2 : reqDst = some selfLoc <;>
    simp [h1, h2]

/-- Witness for C8: the three cases at concrete inputs. -/
theorem locate_peer_cases_witness :
    locatePeerReply "me" ⟨"a", 1⟩ "me" none = some (some ⟨"a", 1⟩) ∧
    locatePeerReply "me" ⟨"a", 1⟩ "you" (some ⟨"a", 1⟩) = some none ∧
    locatePeerReply "me" ⟨"a", 1⟩ "you" none = none :=
  ⟨locate_peer_cases "me" ⟨"a", 1⟩ "me" none,
   locate_peer_cases "me" ⟨"a", 1⟩ "you" (some ⟨"a", 1⟩),
   locate_peer_cases "me" ⟨"a", 1⟩ "you" none⟩

/-- C9: `AsynCoro.peer` returns `-1` exactly when hostname resolution
fails; on successful resolution it returns `0` whatever became of the UDP
ping and the optional TCP ping (their exceptions are swallowed), so `0`
does not imply the peer was reached. -/
theorem peer_return_value (resolveOk : Bool) (tcpPort : Nat)
    (udpSendOk tcpSendOk : Bool) :
    ((peerCall resolveOk tcpPort udpSendOk tcpSendOk).ret = -1 ↔
      resolveOk = false) ∧
    ((peerCall resolveOk tcpPort udpSendOk tcpSendOk).ret = 0 ↔
      resolveOk = true) := by
  cases resolveOk <;> simp [peerCall]

/-- Witness for C9: resolution succeeds but both sends fail, result `0`;
resolution fails, result `-1`. -/
theorem peer_return_value_witness :
    (peerCall true 51351 false false).ret = 0 ∧
    (peerCall false 51351 true true).ret = -1 :=
  ⟨(peer_return_value true 51351 false false).2.mpr rfl,
   (peer_return_value false 51351 true true).1.mpr rfl⟩

/-- C10: a `deliver` addressed to a local coroutine by id replies with
the constant `1` whenever the coroutine exists, regardless of what
`coro.send` returns (whereas `send` replies with `coro.send`'s value),
and `-1` when the id is unknown. -/
theorem deliver_coro_constant_reply (coros : List (Nat × Int)) (cid : Nat) :
    deliverCoroReply coros cid =
      (if (coros.lookup cid).isSome then 1 else -1) ∧
    (∀ sendRes, coros.lookup cid = some sendRes →
      sendCoroReply coros cid = sendRes) ∧
    (coros.lookup cid = none → deliverCoroReply coros cid = -1) := by
  refine ⟨?_, fun r h => by simp [sendCoroReply, h], fun h => by
    simp [deliverCoroReply, h]⟩
  unfold deliverCoroReply
  cases coros.lookup cid <;> simp

/-- Witness for C10: a known coroutine whose `coro.send` returns `-1`
still yields deliver-reply `1`, while `send` would reply `-1`; an unknown
id yields `-1`. -/
theorem deliver_coro_constant_reply_witness :
    deliverCoroReply [(3, -1)] 3 = 1 ∧
    sendCoroReply [(3, -1)] 3 = -1 ∧
    deliverCoroReply [(3, -1)] 4 = -1 :=
  ⟨by simpa using (deliver_coro_constant_reply [(3, -1)] 3).1,
   (deliver_coro_constant_reply [(3, -1)] 3).2.1 (-1) rfl,
   (deliver_coro_constant_reply [(3, -1)] 4).2.2 rfl⟩

end Disasyncoro
